import Mathlib

/-!
Verification of the Hexstack project scaffolder (`src/setup.rs`).

The development shallowly embeds the data model and operations of
`ProjectSetup`: the compiled-in component and template registries, the
priority-ordered template resolver `determine_template`, the project-name
validator, the destination-conflict check, the progress-step count, and the
effectful `build` pipeline (modelled as a pure function over an abstract
world that fixes the outcome of every external command, returning the list
of external effects in the order they are performed together with the
outcome).

Rust `HashMap`s built from fixed literals are embedded as association lists
with distinct keys; `HashSet` views of the selection are embedded through
`List.dedup` (membership and cardinality agree with the Rust set). Rust
`String::to_lowercase` is embedded as `String.toLower` and
`char::is_alphabetic` as `Char.isAlpha`; these agree on the ASCII
identifiers and names this program manipulates. `String::len` (UTF-8 bytes)
is embedded as `String.utf8ByteSize`.
-/

/-- `ComponentConfig` from `setup.rs`: per-component metadata. -/
structure ComponentConfig where
  description : String
deriving DecidableEq, Repr

/-- `ProjectTemplate` from `setup.rs`: a display name and a repository URL. -/
structure ProjectTemplate where
  name : String
  github_url : String
deriving DecidableEq, Repr

/-- `ProjectSetup` from `setup.rs`. The `config` and `templates` fields are
the compiled-in registries stored on construction. -/
structure ProjectSetup where
  name : String
  selected_components : List String
  selected_frontend : Option String
  config : List (String × ComponentConfig)
  templates : List (String × ProjectTemplate)

/-- `ProjectSetup::load_component_config`: the compiled-in component
registry (a `HashMap` literal, embedded as an association list). -/
def load_component_config : List (String × ComponentConfig) :=
  [("ripress", ⟨"An HTTP Framework with best in class developer experience"⟩),
   ("wynd", ⟨"An Event Driven WebSocket library"⟩),
   ("lume", ⟨"A simple and intuitive Query Builder inspired by Drizzle"⟩)]

/-- The "Ripress Basic" template from `load_templates`. -/
def ripressBasic : ProjectTemplate :=
  ⟨"Ripress Basic", "https://github.com/Guru901/ripress-only"⟩

/-- The "Wynd Basic" template from `load_templates`. -/
def wyndBasic : ProjectTemplate :=
  ⟨"Wynd Basic", "https://github.com/Guru901/wynd-only"⟩

/-- The "Lume Basic" template from `load_templates`. -/
def lumeBasic : ProjectTemplate :=
  ⟨"Lume Basic", "https://github.com/Guru901/lume-only"⟩

/-- The "Ripress + Wynd" template from `load_templates`. -/
def ripressWynd : ProjectTemplate :=
  ⟨"Ripress + Wynd", "https://github.com/Guru901/ripress-wynd"⟩

/-- The "Ripress + Lume" template from `load_templates`. -/
def ripressLume : ProjectTemplate :=
  ⟨"Ripress + Lume", "https://github.com/Guru901/ripress-lume"⟩

/-- The "Wynd + Lume" template from `load_templates`. -/
def wyndLume : ProjectTemplate :=
  ⟨"Wynd + Lume", "https://github.com/Guru901/wynd-lume"⟩

/-- The "Ripress + Wynd + Lume" template from `load_templates`. -/
def ripressWyndLume : ProjectTemplate :=
  ⟨"Ripress + Wynd + Lume", "https://github.com/Guru901/ripress-wynd-lume"⟩

/-- The "Ripress + React" template from `load_templates`. -/
def ripressReact : ProjectTemplate :=
  ⟨"Ripress + React", "https://github.com/Guru901/ripress-react"⟩

/-- The "Wynd + React" template from `load_templates`. -/
def wyndReact : ProjectTemplate :=
  ⟨"Wynd + React", "https://github.com/Guru901/wynd-react"⟩

/-- The "Ripress + Wynd + React" template from `load_templates`. -/
def ripressWyndReact : ProjectTemplate :=
  ⟨"Ripress + Wynd + React", "https://github.com/Guru901/ripress-wynd-react"⟩

/-- The "Ripress + Lume + React" template from `load_templates`. -/
def ripressLumeReact : ProjectTemplate :=
  ⟨"Ripress + Lume + React", "https://github.com/Guru901/ripress-lume-react"⟩

/-- The "Wynd + Lume + React" template from `load_templates`. -/
def wyndLumeReact : ProjectTemplate :=
  ⟨"Wynd + Lume + React", "https://github.com/Guru901/wynd-lume-react"⟩

/-- The "Ripress + Wynd + Lume + React" template from `load_templates`. -/
def ripressWyndLumeReact : ProjectTemplate :=
  ⟨"Ripress + Wynd + Lume + React", "https://github.com/Guru901/ripress-wynd-lume-react"⟩

/-- The "Ripress + Svelte" template from `load_templates`. -/
def ripressSvelte : ProjectTemplate :=
  ⟨"Ripress + Svelte", "https://github.com/Guru901/ripress-svelte"⟩

/-- The "Wynd + Svelte" template from `load_templates`. -/
def wyndSvelte : ProjectTemplate :=
  ⟨"Wynd + Svelte", "https://github.com/Guru901/wynd-svelte"⟩

/-- The "Ripress + Wynd + Svelte" template from `load_templates`. -/
def ripressWyndSvelte : ProjectTemplate :=
  ⟨"Ripress + Wynd + Svelte", "https://github.com/Guru901/ripress-wynd-svelte"⟩

/-- The "Ripress + Lume + Svelte" template from `load_templates`. -/
def ripressLumeSvelte : ProjectTemplate :=
  ⟨"Ripress + Lume + Svelte", "https://github.com/Guru901/ripress-lume-svelte"⟩

/-- The "Wynd + Lume + Svelte" template from `load_templates`. -/
def wyndLumeSvelte : ProjectTemplate :=
  ⟨"Wynd + Lume + Svelte", "https://github.com/Guru901/wynd-lume-svelte"⟩

/-- The "Ripress + Wynd + Lume + Svelte" template from `load_templates`. -/
def ripressWyndLumeSvelte : ProjectTemplate :=
  ⟨"Ripress + Wynd + Lume + Svelte", "https://github.com/Guru901/ripress-wynd-lume-svelte"⟩

/-- `ProjectSetup::load_templates`: the compiled-in template catalog
(a `HashMap` literal, embedded as an association list in source order). -/
def load_templates : List (String × ProjectTemplate) :=
  [("ripress", ripressBasic),
   ("wynd", wyndBasic),
   ("lume", lumeBasic),
   ("ripress_wynd", ripressWynd),
   ("ripress_lume", ripressLume),
   ("wynd_lume", wyndLume),
   ("ripress_wynd_lume", ripressWyndLume),
   ("ripress-react", ripressReact),
   ("wynd-react", wyndReact),
   ("ripress-wynd-react", ripressWyndReact),
   ("ripress-lume-react", ripressLumeReact),
   ("wynd-lume-react", wyndLumeReact),
   ("ripress-wynd-lume-react", ripressWyndLumeReact),
   ("ripress-svelte", ripressSvelte),
   ("wynd-svelte", wyndSvelte),
   ("ripress-wynd-svelte", ripressWyndSvelte),
   ("ripress-lume-svelte", ripressLumeSvelte),
   ("wynd-lume-svelte", wyndLumeSvelte),
   ("ripress-wynd-lume-svelte", ripressWyndLumeSvelte)]

/-- Rust `str::to_lowercase`, embedded character by character with
`Char.toLower`. The two agree on ASCII strings (all component identifiers
this program compares are ASCII). -/
def to_lowercase (s : String) : String := ⟨s.data.map Char.toLower⟩

/-- `ProjectSetup::new`: normalizes every selected component to lowercase
and stores the compiled-in registries. -/
def ProjectSetup.new (name : String) (selected_components : List String)
    (selected_frontend : Option String) : ProjectSetup :=
  { name := name
    selected_components := selected_components.map to_lowercase
    selected_frontend := selected_frontend
    config := load_component_config
    templates := load_templates }

/-- The priority list used by `determine_template` when the frontend is
"react" (source order). -/
def reactPriorities : List (String × List String) :=
  [("ripress-wynd-lume-react", ["ripress", "wynd", "lume"]),
   ("ripress-wynd-react", ["ripress", "wynd"]),
   ("ripress-lume-react", ["ripress", "lume"]),
   ("wynd-lume-react", ["wynd", "lume"]),
   ("ripress-react", ["ripress"]),
   ("wynd-react", ["wynd"]),
   ("lume-react", ["lume"])]

/-- The priority list used by `determine_template` when the frontend is
"svelte" (source order). -/
def sveltePriorities : List (String × List String) :=
  [("ripress-wynd-lume-svelte", ["ripress", "wynd", "lume"]),
   ("ripress-wynd-svelte", ["ripress", "wynd"]),
   ("ripress-lume-svelte", ["ripress", "lume"]),
   ("wynd-lume-svelte", ["wynd", "lume"]),
   ("ripress-svelte", ["ripress"]),
   ("wynd-svelte", ["wynd"]),
   ("lume-svelte", ["lume"])]

/-- The priority list used by `determine_template` when no (supported)
frontend is selected (source order). -/
def noFrontendPriorities : List (String × List String) :=
  [("ripress_wynd_lume", ["ripress", "wynd", "lume"]),
   ("ripress_wynd", ["ripress", "wynd"]),
   ("ripress_lume", ["ripress", "lume"]),
   ("wynd_lume", ["wynd", "lume"]),
   ("ripress", ["ripress"]),
   ("wynd", ["wynd"]),
   ("lume", ["lume"])]

/-- The `for (template_key, required_components) in &template_priorities`
loop of `determine_template`. `cset` is the selection as a set (duplicates
removed): the Rust `HashSet`'s `contains` is membership in `cset` and its
`len()` is `cset.length`. A multi-component candidate additionally
requires the set sizes to be equal; a candidate whose key is absent from
the template map is skipped. -/
def resolveLoop (tmpls : List (String × ProjectTemplate)) :
    List (String × List String) → List String → Option ProjectTemplate
  | [], _ => none
  | (key, req) :: rest, cset =>
    if ∀ c ∈ req, c ∈ cset then
      if 1 < req.length then
        if cset.length = req.length then
          match tmpls.lookup key with
          | some t => some t
          | none => resolveLoop tmpls rest cset
        else resolveLoop tmpls rest cset
      else
        match tmpls.lookup key with
        | some t => some t
        | none => resolveLoop tmpls rest cset
    else resolveLoop tmpls rest cset

/-- The priority list `determine_template` selects from the frontend: the
`has_react_frontend` / `has_svelte_frontend` booleans with the final
`else` branch. -/
def ProjectSetup.template_priorities (s : ProjectSetup) :
    List (String × List String) :=
  if s.selected_frontend == some "react" then reactPriorities
  else if s.selected_frontend == some "svelte" then sveltePriorities
  else noFrontendPriorities

/-- `ProjectSetup::determine_template`: builds the `HashSet` of selected
components and scans the frontend-specific priority list. -/
def ProjectSetup.determine_template (s : ProjectSetup) : Option ProjectTemplate :=
  resolveLoop s.templates s.template_priorities s.selected_components.dedup

/-- `ProjectSetup::calculate_total_steps`:
`1 (cargo new) + #components + 1 (template generation) + 1 (common deps)`.
The `u64` arithmetic cannot overflow for any realizable selection list, so
it is embedded over `Nat`. -/
def ProjectSetup.calculate_total_steps (s : ProjectSetup) : Nat :=
  1 + s.selected_components.length + 1 + 1

/-- The errors `validate_project_name` can raise, one per `bail!` site, in
source order. `badStart` carries the offending first character (the Rust
message interpolates it). -/
inductive NameError where
  | emptyName : NameError
  | tooLong : NameError
  | invalidChars : NameError
  | badStart (c : Char) : NameError
deriving DecidableEq, Repr

/-- The `invalid_chars` array from `validate_project_name`. -/
def invalid_chars : List Char := ['/', '\\', ':', '*', '?', '"', '<', '>', '|']

/-- `char::is_alphabetic`, embedded as `Char.isAlpha`. The two agree on
ASCII characters; Rust additionally accepts non-ASCII Unicode letters,
which no claim in this development exercises on the first-character rule. -/
def is_alphabetic (c : Char) : Bool := c.isAlpha

/-- `ProjectSetup::validate_project_name`. `name.len()` in Rust counts
UTF-8 bytes, embedded as `String.utf8ByteSize`; `name.chars().any(..)`
walks the characters; `chars().next()` is the head of the character
sequence (absent only for the empty name, which is rejected earlier).
`none` is `Ok(())`; `some e` is the first `bail!`. -/
def ProjectSetup.validate_project_name (s : ProjectSetup) : Option NameError :=
  if s.name = "" then some .emptyName
  else if 50 < s.name.utf8ByteSize then some .tooLong
  else if s.name.data.any (fun c => invalid_chars.contains c) then some .invalidChars
  else
    match s.name.data.head? with
    | some first_char =>
      if !(is_alphabetic first_char) && first_char != '_' then
        some (.badStart first_char)
      else none
    | none => none

/-- The kind of filesystem entry occupying a path: `is_dir()` true, or any
other existing entry (`exists()` true, `is_dir()` false). -/
inductive FsEntry where
  | dir : FsEntry
  | file : FsEntry
deriving DecidableEq, Repr

/-- The filesystem as `check_directory_conflict` observes it: what entry,
if any, exists at each path relative to the current directory. -/
structure FileSystem where
  entry : String → Option FsEntry

/-- The two `bail!` outcomes of `check_directory_conflict`. The Rust
messages suggest, respectively, removing/renaming an existing directory
and renaming away from an existing file. -/
inductive ConflictError where
  | dirExists (name : String) : ConflictError
  | fileExists (name : String) : ConflictError
deriving DecidableEq, Repr

/-- `ProjectSetup::check_directory_conflict`: read-only probe of the
destination path. -/
def ProjectSetup.check_directory_conflict (fs : FileSystem) (s : ProjectSetup) :
    Option ConflictError :=
  match fs.entry s.name with
  | some .dir => some (.dirExists s.name)
  | some .file => some (.fileExists s.name)
  | none => none

/-- Outcome of one spawned external command: exit status and captured
stderr. -/
structure CommandResult where
  success : Bool
  stderr : String

/-- The abstract world a `build` invocation runs against: the prior
filesystem plus the outcome of each external operation the pipeline may
perform, fixed up front so that `build` is a pure function of it. -/
structure World where
  fs : FileSystem
  clone_result : CommandResult
  git_dir_exists_after_clone : Bool
  remove_git_dir_ok : Bool
  git_init_result : CommandResult
  backend_is_dir : Bool
  cargo_update_result : CommandResult

/-- Externally visible operations `build` performs, in order: spawning a
process (program, arguments, working directory) or recursively deleting a
directory. The progress bar and `println!` reporting are not modelled. -/
inductive Effect where
  | spawn (program : String) (args : List String) (cwd : String) : Effect
  | removeDirAll (path : String) : Effect
deriving DecidableEq, Repr

/-- The failures `build` can propagate, one per `bail!` / `context` site
that a claim exercises. -/
inductive BuildError where
  | nameError (e : NameError) : BuildError
  | conflict (e : ConflictError) : BuildError
  | cloneFailed (templateName stderr url projectName : String) : BuildError
  | removeGitDirFailed : BuildError
  | gitInitFailed (stderr : String) : BuildError
  | cargoUpdateFailed (dir stderr : String) : BuildError
deriving DecidableEq, Repr

/-- `ProjectSetup::cleanup_and_reinit_git`: removes `<name>/.git` when it
exists, then runs `git init` in the project directory. Returns the effects
performed and the error, if any. -/
def ProjectSetup.cleanup_and_reinit_git (w : World) (s : ProjectSetup) :
    List Effect × Option BuildError :=
  let removeEffects :=
    if w.git_dir_exists_after_clone then [Effect.removeDirAll (s.name ++ "/.git")] else []
  if w.git_dir_exists_after_clone && !w.remove_git_dir_ok then
    (removeEffects, some .removeGitDirFailed)
  else
    (removeEffects ++ [Effect.spawn "git" ["init"] s.name],
     if w.git_init_result.success then none
     else some (.gitInitFailed w.git_init_result.stderr))

/-- The tail of `build`: `cargo update` inside `<name>/backend` when that
directory exists, else inside `<name>`. `acc` is the effects already
performed. -/
def ProjectSetup.run_cargo_update (w : World) (s : ProjectSetup) (acc : List Effect) :
    List Effect × Option BuildError :=
  let cargo_update_dir := if w.backend_is_dir then s.name ++ "/backend" else s.name
  (acc ++ [Effect.spawn "cargo" ["update"] cargo_update_dir],
   if w.cargo_update_result.success then none
   else some (.cargoUpdateFailed cargo_update_dir w.cargo_update_result.stderr))

/-- `ProjectSetup::build`, embedded as a pure function of the abstract
world: validation, conflict check, optional template clone with git
cleanup/reinit, then the dependency refresh. Returns the external effects
in the order the Rust code performs them, together with the first error. -/
def ProjectSetup.build (w : World) (s : ProjectSetup) :
    List Effect × Option BuildError :=
  match s.validate_project_name with
  | some e => ([], some (.nameError e))
  | none =>
    match s.check_directory_conflict w.fs with
    | some e => ([], some (.conflict e))
    | none =>
      match s.determine_template with
      | some template =>
        let cloneEffect := [Effect.spawn "git" ["clone", template.github_url, s.name] "."]
        if w.clone_result.success then
          match s.cleanup_and_reinit_git w with
          | (gitEffects, some e) => (cloneEffect ++ gitEffects, some e)
          | (gitEffects, none) => s.run_cargo_update w (cloneEffect ++ gitEffects)
        else
          (cloneEffect,
           some (.cloneFailed template.name w.clone_result.stderr template.github_url s.name))
      | none => s.run_cargo_update w []

/-! ### Statement-level helper definitions -/

/-- The identifiers the component registry knows. -/
def knownComponentIds : List String := load_component_config.map Prod.fst

/-- The required-component sets of the multi-component priority entries
(the same four sets appear in each of the three priority lists). -/
def multiRequiredSets : List (List String) :=
  [["ripress", "wynd", "lume"], ["ripress", "wynd"], ["ripress", "lume"], ["wynd", "lume"]]

/-- The template a priority list associates to a given required-component
list: the key of the entry with that required list, looked up in the
catalog. -/
def templateForRequired (prio : List (String × List String)) (req : List String) :
    Option ProjectTemplate :=
  match prio.find? (fun p => p.2 == req) with
  | some (key, _) => load_templates.lookup key
  | none => none

/-- The highest-priority single component present in a selection (the
single-component candidates appear in the order ripress, wynd, lume in
every priority list). -/
def firstSelectedSingle (sel : List String) : Option String :=
  ["ripress", "wynd", "lume"].find? (fun c => decide (c ∈ sel))

/-- Whether a build error is the destination-conflict error (as opposed to
a name-validation or pipeline error). -/
def BuildError.isConflict : BuildError → Bool
  | .conflict _ => true
  | _ => false

/-- The conflict error `check_directory_conflict` raises for each kind of
occupying entry. -/
def conflictFor (name : String) : FsEntry → ConflictError
  | .dir => .dirExists name
  | .file => .fileExists name

/-- Closed form of the resolver loop on `noFrontendPriorities`, as a
decision tree over which known components are selected (`r`, `w`, `l`)
and the number `n` of distinct selected identifiers. -/
def resolveAbsNone (r w l : Bool) (n : Nat) : Option ProjectTemplate :=
  if r && w && l && (n == 3) then some ripressWyndLume
  else if r && w && (n == 2) then some ripressWynd
  else if r && l && (n == 2) then some ripressLume
  else if w && l && (n == 2) then some wyndLume
  else if r then some ripressBasic
  else if w then some wyndBasic
  else if l then some lumeBasic
  else none

/-- Closed form of the resolver loop on `reactPriorities`. The final
single-`lume` candidate names the key `lume-react`, which is absent from
the catalog, so its branch falls through to `none`. -/
def resolveAbsReact (r w l : Bool) (n : Nat) : Option ProjectTemplate :=
  if r && w && l && (n == 3) then some ripressWyndLumeReact
  else if r && w && (n == 2) then some ripressWyndReact
  else if r && l && (n == 2) then some ripressLumeReact
  else if w && l && (n == 2) then some wyndLumeReact
  else if r then some ripressReact
  else if w then some wyndReact
  else none

/-- Closed form of the resolver loop on `sveltePriorities`; as for react,
the key `lume-svelte` is absent from the catalog. -/
def resolveAbsSvelte (r w l : Bool) (n : Nat) : Option ProjectTemplate :=
  if r && w && l && (n == 3) then some ripressWyndLumeSvelte
  else if r && w && (n == 2) then some ripressWyndSvelte
  else if r && l && (n == 2) then some ripressLumeSvelte
  else if w && l && (n == 2) then some wyndLumeSvelte
  else if r then some ripressSvelte
  else if w then some wyndSvelte
  else none

/-- A successful external command. -/
def cmd_ok : CommandResult := ⟨true, ""⟩

/-- A world whose filesystem holds exactly one entry, of kind `k`, at path
`n`, and where every external command succeeds. -/
def worldWithEntry (n : String) (k : FsEntry) : World :=
  { fs := ⟨fun p => if p = n then some k else none⟩
    clone_result := cmd_ok
    git_dir_exists_after_clone := true
    remove_git_dir_ok := true
    git_init_result := cmd_ok
    backend_is_dir := false
    cargo_update_result := cmd_ok }

/-- A world with an empty filesystem where every external command
succeeds and the cloned template carries a `.git` directory. -/
def emptyFsWorld : World :=
  { fs := ⟨fun _ => none⟩
    clone_result := cmd_ok
    git_dir_exists_after_clone := true
    remove_git_dir_ok := true
    git_init_result := cmd_ok
    backend_is_dir := false
    cargo_update_result := cmd_ok }

/-- A 50-character all-letter name (at the length limit). -/
def name50 : String := String.mk (List.replicate 50 'a')

/-- A 51-character all-letter name (one over the length limit). -/
def name51 : String := String.mk (List.replicate 51 'a')

/-- 26 copies of a two-byte character: 26 characters, 52 UTF-8 bytes. -/
def accented26 : String := String.mk (List.replicate 26 'é')

example : (ProjectSetup.new "p" ["ripress"] none).determine_template =
    some ripressBasic := by decide

example : (ProjectSetup.new "p" ["RIPRESS", "WyNd"] none).determine_template =
    some ripressWynd := by decide

example : (ProjectSetup.new "p" ["ripress", "wynd", "extraunknown"] none).determine_template =
    some ripressBasic := by decide

example : (ProjectSetup.new "p" ["ripress", "wynd", "lume"] none).determine_template =
    some ripressWyndLume := by decide

example : (ProjectSetup.new "p" ["lume"] (some "react")).determine_template =
    none := by decide

example : (ProjectSetup.new "p" ["ripress", "wynd"] (some "react")).determine_template =
    some ripressWyndReact := by decide

/-! ### Catalog lookups for every key the resolver's priority lists name -/

lemma lookup_rwl : load_templates.lookup "ripress_wynd_lume" = some ripressWyndLume := by decide

lemma lookup_rw : load_templates.lookup "ripress_wynd" = some ripressWynd := by decide

lemma lookup_rl : load_templates.lookup "ripress_lume" = some ripressLume := by decide

lemma lookup_wl : load_templates.lookup "wynd_lume" = some wyndLume := by decide

lemma lookup_r : load_templates.lookup "ripress" = some ripressBasic := by decide

lemma lookup_w : load_templates.lookup "wynd" = some wyndBasic := by decide

lemma lookup_l : load_templates.lookup "lume" = some lumeBasic := by decide

lemma lookup_rwl_react :
    load_templates.lookup "ripress-wynd-lume-react" = some ripressWyndLumeReact := by decide

lemma lookup_rw_react :
    load_templates.lookup "ripress-wynd-react" = some ripressWyndReact := by decide

lemma lookup_rl_react :
    load_templates.lookup "ripress-lume-react" = some ripressLumeReact := by decide

lemma lookup_wl_react :
    load_templates.lookup "wynd-lume-react" = some wyndLumeReact := by decide

lemma lookup_r_react : load_templates.lookup "ripress-react" = some ripressReact := by decide

lemma lookup_w_react : load_templates.lookup "wynd-react" = some wyndReact := by decide

lemma lookup_l_react : load_templates.lookup "lume-react" = none := by decide

lemma lookup_rwl_svelte :
    load_templates.lookup "ripress-wynd-lume-svelte" = some ripressWyndLumeSvelte := by decide

lemma lookup_rw_svelte :
    load_templates.lookup "ripress-wynd-svelte" = some ripressWyndSvelte := by decide

lemma lookup_rl_svelte :
    load_templates.lookup "ripress-lume-svelte" = some ripressLumeSvelte := by decide

lemma lookup_wl_svelte :
    load_templates.lookup "wynd-lume-svelte" = some wyndLumeSvelte := by decide

lemma lookup_r_svelte : load_templates.lookup "ripress-svelte" = some ripressSvelte := by decide

lemma lookup_w_svelte : load_templates.lookup "wynd-svelte" = some wyndSvelte := by decide

lemma lookup_l_svelte : load_templates.lookup "lume-svelte" = none := by decide

/-! ### Closed forms of the resolver loop on each priority list -/

lemma resolveLoop_noFrontend (cset : List String) :
    resolveLoop load_templates noFrontendPriorities cset =
      resolveAbsNone (decide ("ripress" ∈ cset)) (decide ("wynd" ∈ cset))
        (decide ("lume" ∈ cset)) cset.length := by
  by_cases hr : "ripress" ∈ cset <;> by_cases hw : "wynd" ∈ cset <;>
    by_cases hl : "lume" ∈ cset <;>
    by_cases h3 : cset.length = 3 <;> by_cases h2 : cset.length = 2 <;>
    simp [resolveLoop, resolveAbsNone, noFrontendPriorities, hr, hw, hl, h3, h2,
      lookup_rwl, lookup_rw, lookup_rl, lookup_wl, lookup_r, lookup_w, lookup_l]

lemma resolveLoop_react (cset : List String) :
    resolveLoop load_templates reactPriorities cset =
      resolveAbsReact (decide ("ripress" ∈ cset)) (decide ("wynd" ∈ cset))
        (decide ("lume" ∈ cset)) cset.length := by
  by_cases hr : "ripress" ∈ cset <;> by_cases hw : "wynd" ∈ cset <;>
    by_cases hl : "lume" ∈ cset <;>
    by_cases h3 : cset.length = 3 <;> by_cases h2 : cset.length = 2 <;>
    simp [resolveLoop, resolveAbsReact, reactPriorities, hr, hw, hl, h3, h2,
      lookup_rwl_react, lookup_rw_react, lookup_rl_react, lookup_wl_react,
      lookup_r_react, lookup_w_react, lookup_l_react]

lemma resolveLoop_svelte (cset : List String) :
    resolveLoop load_templates sveltePriorities cset =
      resolveAbsSvelte (decide ("ripress" ∈ cset)) (decide ("wynd" ∈ cset))
        (decide ("lume" ∈ cset)) cset.length := by
  by_cases hr : "ripress" ∈ cset <;> by_cases hw : "wynd" ∈ cset <;>
    by_cases hl : "lume" ∈ cset <;>
    by_cases h3 : cset.length = 3 <;> by_cases h2 : cset.length = 2 <;>
    simp [resolveLoop, resolveAbsSvelte, sveltePriorities, hr, hw, hl, h3, h2,
      lookup_rwl_svelte, lookup_rw_svelte, lookup_rl_svelte, lookup_wl_svelte,
      lookup_r_svelte, lookup_w_svelte, lookup_l_svelte]

/-! ### General facts about the loop and association-list lookups -/

/-- A successful lookup result is a member of the association list. -/
lemma mem_of_lookup_eq_some {β : Type} {l : List (String × β)} {k : String} {t : β}
    (h : l.lookup k = some t) : (k, t) ∈ l := by
  induction l with
  | nil => simp [List.lookup] at h
  | cons p rest ih =>
    obtain ⟨k', t'⟩ := p
    rw [List.lookup] at h
    by_cases hk : k = k'
    · subst hk
      simp at h
      simp [h]
    · have : (k == k') = false := beq_eq_false_iff_ne.mpr hk
      rw [this] at h
      exact List.mem_cons_of_mem _ (ih h)

/-- In an association list whose values are pairwise distinct, two keys
looking up to the same value are equal. -/
lemma lookup_inj {β : Type} {l : List (String × β)} (hnd : (l.map Prod.snd).Nodup)
    {k1 k2 : String} {t : β} (h1 : l.lookup k1 = some t) (h2 : l.lookup k2 = some t) :
    k1 = k2 := by
  have m1 := mem_of_lookup_eq_some h1
  have m2 := mem_of_lookup_eq_some h2
  have := List.inj_on_of_nodup_map hnd m1 m2 rfl
  exact congrArg Prod.fst this

/-- In a list of pairs whose first components are pairwise distinct, a key
determines its associated entry. -/
lemma assoc_right_unique {β : Type} {l : List (String × β)} (hnd : (l.map Prod.fst).Nodup)
    {k : String} {r1 r2 : β} (h1 : (k, r1) ∈ l) (h2 : (k, r2) ∈ l) : r1 = r2 := by
  have := List.inj_on_of_nodup_map hnd h1 h2 rfl
  exact congrArg Prod.snd this

/-- Soundness of the resolver loop: a returned template belongs to some
priority entry that matched the selection — all its required components
are selected, a multi-component entry additionally saw equal set sizes,
and the template is that entry's key looked up in the map. -/
lemma resolveLoop_eq_some {tmpls : List (String × ProjectTemplate)}
    {prio : List (String × List String)} {cset : List String} {t : ProjectTemplate}
    (h : resolveLoop tmpls prio cset = some t) :
    ∃ key req, (key, req) ∈ prio ∧ tmpls.lookup key = some t ∧
      (∀ c ∈ req, c ∈ cset) ∧ (1 < req.length → cset.length = req.length) := by
  induction prio with
  | nil => simp [resolveLoop] at h
  | cons p rest ih =>
    obtain ⟨key, req⟩ := p
    rw [resolveLoop] at h
    by_cases hmem : ∀ c ∈ req, c ∈ cset
    · rw [if_pos hmem] at h
      by_cases hlen : 1 < req.length
      · rw [if_pos hlen] at h
        by_cases hsz : cset.length = req.length
        · rw [if_pos hsz] at h
          rcases hk : tmpls.lookup key with _ | t'
          · rw [hk] at h
            obtain ⟨k', r', hm, hl', hc', hi'⟩ := ih h
            exact ⟨k', r', List.mem_cons_of_mem _ hm, hl', hc', hi'⟩
          · rw [hk] at h
            simp at h
            subst h
            exact ⟨key, req, List.mem_cons_self _ _, hk, hmem, fun _ => hsz⟩
        · rw [if_neg hsz] at h
          obtain ⟨k', r', hm, hl', hc', hi'⟩ := ih h
          exact ⟨k', r', List.mem_cons_of_mem _ hm, hl', hc', hi'⟩
      · rw [if_neg hlen] at h
        rcases hk : tmpls.lookup key with _ | t'
        · rw [hk] at h
          obtain ⟨k', r', hm, hl', hc', hi'⟩ := ih h
          exact ⟨k', r', List.mem_cons_of_mem _ hm, hl', hc', hi'⟩
        · rw [hk] at h
          simp at h
          subst h
          exact ⟨key, req, List.mem_cons_self _ _, hk, hmem, fun h1 => absurd h1 hlen⟩
    · rw [if_neg hmem] at h
      obtain ⟨k', r', hm, hl', hc', hi'⟩ := ih h
      exact ⟨k', r', List.mem_cons_of_mem _ hm, hl', hc', hi'⟩

/-- A duplicate-free list of selected identifiers bounds from below the
number of distinct identifiers of any list containing them all. -/
lemma nodup_length_le_dedup_length {es l : List String}
    (hsub : ∀ x ∈ es, x ∈ l) (hnd : es.Nodup) : es.length ≤ l.dedup.length := by
  have h1 : es.toFinset ⊆ l.toFinset := by
    intro x hx
    exact List.mem_toFinset.2 (hsub x (List.mem_toFinset.1 hx))
  have h2 := Finset.card_le_card h1
  rwa [List.toFinset_card_of_nodup hnd, List.card_toFinset] at h2

/-- The 19 templates of the catalog are pairwise distinct records. -/
lemma load_templates_values_nodup : (load_templates.map Prod.snd).Nodup := by decide

/-- The priority list a freshly constructed setup resolves against, per
frontend value. -/
lemma template_priorities_new (name : String) (comps : List String) (f : Option String) :
    (ProjectSetup.new name comps f).template_priorities =
      if f = some "react" then reactPriorities
      else if f = some "svelte" then sveltePriorities
      else noFrontendPriorities := by
  by_cases h1 : f = some "react" <;> by_cases h2 : f = some "svelte" <;>
    simp [ProjectSetup.template_priorities, ProjectSetup.new, h1, h2]

/-- `determine_template` on a fresh setup with no supported frontend, in
closed form over the normalized selection. -/
lemma determine_new_noFrontend (name : String) (comps : List String) (f : Option String)
    (h1 : f ≠ some "react") (h2 : f ≠ some "svelte") :
    (ProjectSetup.new name comps f).determine_template =
      resolveAbsNone (decide ("ripress" ∈ comps.map to_lowercase))
        (decide ("wynd" ∈ comps.map to_lowercase))
        (decide ("lume" ∈ comps.map to_lowercase))
        (comps.map to_lowercase).dedup.length := by
  have hp := template_priorities_new name comps f
  rw [if_neg h1, if_neg h2] at hp
  show resolveLoop (ProjectSetup.new name comps f).templates
      (ProjectSetup.new name comps f).template_priorities
      (ProjectSetup.new name comps f).selected_components.dedup = _
  rw [hp]
  show resolveLoop load_templates noFrontendPriorities ((comps.map to_lowercase).dedup) = _
  rw [resolveLoop_noFrontend]
  simp [List.mem_dedup]

/-- `determine_template` on a fresh setup with the react frontend, in
closed form over the normalized selection. -/
lemma determine_new_react (name : String) (comps : List String) :
    (ProjectSetup.new name comps (some "react")).determine_template =
      resolveAbsReact (decide ("ripress" ∈ comps.map to_lowercase))
        (decide ("wynd" ∈ comps.map to_lowercase))
        (decide ("lume" ∈ comps.map to_lowercase))
        (comps.map to_lowercase).dedup.length := by
  show resolveLoop load_templates
      (ProjectSetup.new name comps (some "react")).template_priorities
      ((comps.map to_lowercase).dedup) = _
  rw [template_priorities_new, if_pos rfl, resolveLoop_react]
  simp [List.mem_dedup]

/-- `determine_template` on a fresh setup with the svelte frontend, in
closed form over the normalized selection. -/
lemma determine_new_svelte (name : String) (comps : List String) :
    (ProjectSetup.new name comps (some "svelte")).determine_template =
      resolveAbsSvelte (decide ("ripress" ∈ comps.map to_lowercase))
        (decide ("wynd" ∈ comps.map to_lowercase))
        (decide ("lume" ∈ comps.map to_lowercase))
        (comps.map to_lowercase).dedup.length := by
  show resolveLoop load_templates
      (ProjectSetup.new name comps (some "svelte")).template_priorities
      ((comps.map to_lowercase).dedup) = _
  rw [template_priorities_new]
  rw [if_neg (by decide), if_pos rfl, resolveLoop_svelte]
  simp [List.mem_dedup]

/-! ## Claims -/

/-- C2 counterexample: the react priority list names the key `lume-react`,
but the compiled-in catalog has no such key (likewise `lume-svelte`), so
not every key named in the resolver's priority lists is present in the
catalog. -/
theorem C2_counterexample :
    ("lume-react", ["lume"]) ∈ reactPriorities ∧
    load_templates.lookup "lume-react" = none ∧
    ("lume-svelte", ["lume"]) ∈ sveltePriorities ∧
    load_templates.lookup "lume-svelte" = none := by decide

/-- C2 (amended): the catalog binds a distinct key to a source URL for
every supported combination of components crossed with frontend variant
except the single component lume with the react frontend and with the
svelte frontend: apart from the keys `lume-react` and `lume-svelte`,
every key named in the resolver's priority lists is present. -/
theorem C2_catalog_keys :
    (load_templates.map Prod.fst).Nodup ∧
    noFrontendPriorities.all (fun p => (load_templates.lookup p.1).isSome) = true ∧
    reactPriorities.all
      (fun p => p.1 == "lume-react" || (load_templates.lookup p.1).isSome) = true ∧
    sveltePriorities.all
      (fun p => p.1 == "lume-svelte" || (load_templates.lookup p.1).isSome) = true ∧
    load_templates.lookup "lume-react" = none ∧
    load_templates.lookup "lume-svelte" = none ∧
    load_templates.all (fun p => p.2.github_url != "") = true := by decide

/-- C3 counterexample: for the selection `{"ripress"}` with no frontend
the up-front total step count is not 2. -/
theorem C3_counterexample :
    (ProjectSetup.new "my-app" ["ripress"] none).calculate_total_steps ≠ 2 := by decide

/-- C3 (amended): for the selection `{"ripress"}` with no frontend the
resolved template is "Ripress Basic", and the pipeline's total step
count, computed up front, equals 4 — one baseline-creation step, one step
per selected component (here one), one materialize step and one
dependency-refresh step. -/
theorem C3_single_ripress :
    (ProjectSetup.new "my-app" ["ripress"] none).determine_template = some ripressBasic ∧
    ripressBasic.name = "Ripress Basic" ∧
    (ProjectSetup.new "my-app" ["ripress"] none).calculate_total_steps = 4 ∧
    (ProjectSetup.new "my-app" ["ripress"] none).calculate_total_steps =
      1 + ["ripress"].length + 1 + 1 := by decide

/-- C6: `validate_project_name` checks its rules in order with the first
violation winning — empty name, then byte length over 50, then a
path-hostile character, then a first character that is neither alphabetic
nor an underscore — and accepts "my-app", "_x" and a 50-letter name. -/
theorem C6_validate_rules :
    (∀ s : ProjectSetup, s.name = "" → s.validate_project_name = some .emptyName) ∧
    (∀ s : ProjectSetup, s.name ≠ "" → 50 < s.name.utf8ByteSize →
      s.validate_project_name = some .tooLong) ∧
    (∀ s : ProjectSetup, s.name ≠ "" → s.name.utf8ByteSize ≤ 50 →
      s.name.data.any (fun c => invalid_chars.contains c) = true →
      s.validate_project_name = some .invalidChars) ∧
    (∀ (s : ProjectSetup) (c : Char), s.name ≠ "" → s.name.utf8ByteSize ≤ 50 →
      s.name.data.any (fun c => invalid_chars.contains c) = false →
      s.name.data.head? = some c → is_alphabetic c = false → c ≠ '_' →
      s.validate_project_name = some (.badStart c)) ∧
    (ProjectSetup.new "my-app" [] none).validate_project_name = none ∧
    (ProjectSetup.new "_x" [] none).validate_project_name = none ∧
    (ProjectSetup.new name50 [] none).validate_project_name = none ∧
    (ProjectSetup.new "" [] none).validate_project_name = some .emptyName ∧
    (ProjectSetup.new name51 [] none).validate_project_name = some .tooLong ∧
    (ProjectSetup.new "a/b" [] none).validate_project_name = some .invalidChars ∧
    (ProjectSetup.new "1abc" [] none).validate_project_name = some (.badStart '1') ∧
    (ProjectSetup.new (String.mk (List.replicate 51 '/')) [] none).validate_project_name =
      some .tooLong := by
  refine ⟨?_, ?_, ?_, ?_, ?_, ?_, ?_, ?_, ?_, ?_, ?_, ?_⟩
  · intro s h
    simp [ProjectSetup.validate_project_name, h]
  · intro s h1 h2
    simp [ProjectSetup.validate_project_name, h1, h2]
  · intro s h1 h2 h3
    unfold ProjectSetup.validate_project_name
    rw [if_neg h1, if_neg (Nat.not_lt.mpr h2), if_pos h3]
  · intro s c h1 h2 h3 h4 h5 h6
    unfold ProjectSetup.validate_project_name
    rw [if_neg h1, if_neg (Nat.not_lt.mpr h2),
      if_neg (by rw [h3]; exact Bool.false_ne_true), h4]
    simp [h5, h6]
  · decide
  · decide
  · decide
  · decide
  · decide
  · decide
  · decide
  · decide

/-- C6 witness: the ordered rules applied at concrete names. -/
theorem C6_validate_rules_witness :
    (ProjectSetup.new "" [] none).validate_project_name = some .emptyName ∧
    (ProjectSetup.new name51 [] none).validate_project_name = some .tooLong ∧
    (ProjectSetup.new "a/b" [] none).validate_project_name = some .invalidChars ∧
    (ProjectSetup.new "1abc" [] none).validate_project_name = some (.badStart '1') :=
  ⟨C6_validate_rules.1 _ rfl,
   C6_validate_rules.2.1 _ (by decide) (by decide),
   C6_validate_rules.2.2.1 _ (by decide) (by decide) (by decide),
   C6_validate_rules.2.2.2.1 _ '1' (by decide) (by decide) (by decide) (by decide)
     (by decide) (by decide)⟩

/-- C10: the project-name length limit counts UTF-8 bytes, not
characters: any name of more than 50 bytes is rejected as too long, in
particular a 26-character name of two-byte characters (52 bytes). -/
theorem C10_limit_counts_bytes :
    (∀ s : ProjectSetup, s.name.length ≤ 50 → 50 < s.name.utf8ByteSize →
      s.validate_project_name = some .tooLong) ∧
    accented26.length = 26 ∧
    accented26.utf8ByteSize = 52 ∧
    (ProjectSetup.new accented26 [] none).validate_project_name = some .tooLong := by
  refine ⟨?_, by decide, by decide, by decide⟩
  intro s hchars hbytes
  have hne : s.name ≠ "" := by
    intro h
    rw [h] at hbytes
    exact absurd hbytes (by decide)
  simp [ProjectSetup.validate_project_name, hne, hbytes]

/-- C10 witness: the theorem applied at the 26-character, 52-byte name. -/
theorem C10_limit_counts_bytes_witness :
    (ProjectSetup.new accented26 [] none).validate_project_name = some .tooLong :=
  C10_limit_counts_bytes.1 (ProjectSetup.new accented26 [] none) (by decide) (by decide)

/-- C9: a frontend value other than "react" or "svelte" resolves exactly
as no frontend at all — the resolver falls back to the no-frontend
priority list. -/
theorem C9_unsupported_frontend (name : String) (comps : List String) (f : Option String)
    (h1 : f ≠ some "react") (h2 : f ≠ some "svelte") :
    (ProjectSetup.new name comps f).determine_template =
      (ProjectSetup.new name comps none).determine_template := by
  rw [determine_new_noFrontend name comps f h1 h2,
    determine_new_noFrontend name comps none (by decide) (by decide)]

/-- C9 witness: `some "vue"` resolves exactly as `none`. -/
theorem C9_unsupported_frontend_witness :
    (ProjectSetup.new "p" ["ripress", "wynd"] (some "vue")).determine_template =
      (ProjectSetup.new "p" ["ripress", "wynd"] none).determine_template :=
  C9_unsupported_frontend "p" ["ripress", "wynd"] (some "vue") (by decide) (by decide)

/-- C5: template resolution is invariant under the casing of component
identifiers — any two selections with the same lowercase image (in
particular a selection and any re-casing of it) resolve to the identical
template, for every frontend, because the constructor lowercases every
identifier. -/
theorem C5_casing_invariant (name : String) (comps1 comps2 : List String)
    (f : Option String) (h : comps1.map to_lowercase = comps2.map to_lowercase) :
    (ProjectSetup.new name comps1 f).determine_template =
      (ProjectSetup.new name comps2 f).determine_template := by
  unfold ProjectSetup.determine_template ProjectSetup.template_priorities ProjectSetup.new
  rw [h]

/-- C5 witness: `{"RIPRESS","WyNd"}` resolves to the same template as
`{"ripress","wynd"}`. -/
theorem C5_casing_invariant_witness :
    (ProjectSetup.new "p" ["RIPRESS", "WyNd"] none).determine_template =
      (ProjectSetup.new "p" ["ripress", "wynd"] none).determine_template :=
  C5_casing_invariant "p" ["RIPRESS", "WyNd"] ["ripress", "wynd"] none (by decide)

/-- C7 counterexample: with a 51-character project name whose destination
path is occupied by a directory, `build` fails before any spawn or
mutation, but with the name-length error — not with an error that
distinguishes an existing directory from an existing file. -/
theorem C7_counterexample :
    (worldWithEntry name51 .dir).fs.entry (ProjectSetup.new name51 [] none).name =
      some .dir ∧
    (ProjectSetup.build (worldWithEntry name51 .dir) (ProjectSetup.new name51 [] none)).1 =
      [] ∧
    (ProjectSetup.build (worldWithEntry name51 .dir) (ProjectSetup.new name51 [] none)).2 =
      some (.nameError .tooLong) ∧
    BuildError.isConflict (.nameError .tooLong) = false := by decide

/-- C7 (amended): if a filesystem entry of any kind exists at the
destination path, `build` fails during validation — no external process
is spawned and no filesystem mutation is performed; when the project name
itself passes name validation, the error is the conflict error, which
distinguishes an existing directory (the source message suggests removal
or rename) from an existing file (rename only). When the name is invalid,
the name-validation error is reported first, still with no effects. -/
theorem C7_conflict_before_spawn (w : World) (s : ProjectSetup) (k : FsEntry)
    (h : w.fs.entry s.name = some k) :
    ((ProjectSetup.build w s).1 = [] ∧ (ProjectSetup.build w s).2 ≠ none) ∧
    (s.validate_project_name = none →
      (ProjectSetup.build w s).2 = some (.conflict (conflictFor s.name k))) := by
  have hconf : s.check_directory_conflict w.fs = some (conflictFor s.name k) := by
    unfold ProjectSetup.check_directory_conflict conflictFor
    cases k <;> rw [h]
  rcases hv : s.validate_project_name with _ | e
  · refine ⟨⟨?_, ?_⟩, fun _ => ?_⟩ <;>
      simp [ProjectSetup.build, hv, hconf]
  · refine ⟨⟨?_, ?_⟩, fun hnone => ?_⟩ <;>
      simp_all [ProjectSetup.build, hv]

/-- C7 witness: a fresh valid name whose destination is occupied by a
file. -/
theorem C7_conflict_before_spawn_witness :
    ((ProjectSetup.build (worldWithEntry "occupied" .file)
        (ProjectSetup.new "occupied" [] none)).1 = [] ∧
     (ProjectSetup.build (worldWithEntry "occupied" .file)
        (ProjectSetup.new "occupied" [] none)).2 ≠ none) ∧
    ((ProjectSetup.new "occupied" [] none).validate_project_name = none →
      (ProjectSetup.build (worldWithEntry "occupied" .file)
        (ProjectSetup.new "occupied" [] none)).2 =
        some (.conflict (conflictFor "occupied" .file))) :=
  C7_conflict_before_spawn (worldWithEntry "occupied" .file)
    (ProjectSetup.new "occupied" [] none) .file (by decide)

/-- C8: whenever a template is resolved, the clone succeeds and the clone
carried a `.git` directory, the pipeline removes that directory and then
runs `git init` in the new project directory, after the clone and before
the `cargo update` dependency-refresh step — the full effect trace in
order. -/
theorem C8_git_cleanup_order (w : World) (s : ProjectSetup) (t : ProjectTemplate)
    (hv : s.validate_project_name = none)
    (hc : s.check_directory_conflict w.fs = none)
    (ht : s.determine_template = some t)
    (hclone : w.clone_result.success = true)
    (hgit : w.git_dir_exists_after_clone = true)
    (hrm : w.remove_git_dir_ok = true)
    (hinit : w.git_init_result.success = true) :
    (ProjectSetup.build w s).1 =
      [Effect.spawn "git" ["clone", t.github_url, s.name] ".",
       Effect.removeDirAll (s.name ++ "/.git"),
       Effect.spawn "git" ["init"] s.name,
       Effect.spawn "cargo" ["update"]
         (if w.backend_is_dir then s.name ++ "/backend" else s.name)] := by
  unfold ProjectSetup.build
  rw [hv, hc, ht]
  have hclean : s.cleanup_and_reinit_git w =
      ([Effect.removeDirAll (s.name ++ "/.git"), Effect.spawn "git" ["init"] s.name],
       none) := by
    unfold ProjectSetup.cleanup_and_reinit_git
    rw [hgit, hrm, hinit]
    simp
  rw [hclone]
  simp only [if_pos rfl, hclean]
  unfold ProjectSetup.run_cargo_update
  simp

/-- C8 witness: the concrete trace for `{"ripress"}` with no frontend in
an all-success world. -/
theorem C8_git_cleanup_order_witness :
    (ProjectSetup.build emptyFsWorld (ProjectSetup.new "proj" ["ripress"] none)).1 =
      [Effect.spawn "git" ["clone", "https://github.com/Guru901/ripress-only", "proj"] ".",
       Effect.removeDirAll "proj/.git",
       Effect.spawn "git" ["init"] "proj",
       Effect.spawn "cargo" ["update"] "proj"] :=
  C8_git_cleanup_order emptyFsWorld (ProjectSetup.new "proj" ["ripress"] none) ripressBasic
    (by decide) (by decide) (by decide) rfl rfl rfl rfl

/-- C4 counterexample: dropping the unknown identifier "zzz" from the
selection `{"ripress","wynd","zzz"}` changes the resolved template from
Ripress Basic to Ripress + Wynd, so unknown identifiers do affect
matching. -/
theorem C4_counterexample :
    "zzz" ∉ knownComponentIds ∧
    (ProjectSetup.new "p" ["ripress", "wynd", "zzz"] none).determine_template =
      some ripressBasic ∧
    (ProjectSetup.new "p" ["ripress", "wynd"] none).determine_template =
      some ripressWynd ∧
    ripressBasic ≠ ripressWynd := by decide

/-- C1 counterexample: the selection `{"ripress","wynd","lume"}` strictly
contains the required set of the multi-component candidate
`("ripress_wynd", ["ripress","wynd"])`, yet `determine_template` returns
the three-component template Ripress + Wynd + Lume — not any
single-component template. -/
theorem C1_counterexample :
    ("ripress_wynd", ["ripress", "wynd"]) ∈ noFrontendPriorities ∧
    (∀ c ∈ ["ripress", "wynd"], c ∈ (["ripress", "wynd", "lume"] : List String)) ∧
    "lume" ∉ (["ripress", "wynd"] : List String) ∧
    (ProjectSetup.new "p" ["ripress", "wynd", "lume"] none).determine_template =
      some ripressWyndLume ∧
    ripressWyndLume ∉ [ripressBasic, wyndBasic, lumeBasic] := by decide

/-! ### Support for the universal resolver claims -/

/-- Each of the three priority lists has pairwise distinct keys. -/
lemma priorities_fst_nodup (name : String) (comps : List String) (f : Option String) :
    (((ProjectSetup.new name comps f).template_priorities).map Prod.fst).Nodup := by
  rw [template_priorities_new]
  split_ifs <;> decide

/-- Every priority entry has a duplicate-free required list of known
component identifiers. -/
lemma priorities_entry_facts (name : String) (comps : List String) (f : Option String) :
    ∀ p ∈ (ProjectSetup.new name comps f).template_priorities,
      p.2.Nodup ∧ ∀ c ∈ p.2, c ∈ knownComponentIds := by
  rw [template_priorities_new]
  split_ifs <;> decide

/-- If the distinct identifiers of `L` number at most `es.length` and the
duplicate-free `es` is contained in `L`, then every element of `L` is in
`es`. -/
lemma mem_of_dedup_length_le {L es : List String} (hsub : ∀ c ∈ es, c ∈ L)
    (hnd : es.Nodup) (hn : L.dedup.length ≤ es.length) : ∀ x ∈ L, x ∈ es := by
  intro x hx
  by_contra hxe
  have hsub' : ∀ y ∈ x :: es, y ∈ L := by
    intro y hy
    rcases List.mem_cons.mp hy with rfl | hy'
    · exact hx
    · exact hsub y hy'
  have := nodup_length_le_dedup_length hsub' (List.nodup_cons.mpr ⟨hxe, hnd⟩)
  simp only [List.length_cons] at this
  omega

/-- A selection whose distinct-identifier count equals that of a
duplicate-free sublist is exactly that sublist as a set. -/
lemma exact_set_match {L es : List String} (hsub : ∀ c ∈ es, c ∈ L) (hnd : es.Nodup)
    (hn : L.dedup.length = es.length) : ∀ c, c ∈ L ↔ c ∈ es :=
  fun c => ⟨fun hc => mem_of_dedup_length_le hsub hnd (le_of_eq hn) c hc,
    fun hc => hsub c hc⟩

/-- Two lists with the same members have the same number of distinct
members. -/
lemma dedup_length_eq_of_mem_iff {L req : List String} (h : ∀ c, c ∈ L ↔ c ∈ req) :
    L.dedup.length = req.dedup.length := by
  have ht : L.toFinset = req.toFinset := by
    ext x
    simp only [List.mem_toFinset]
    exact h x
  rw [← List.card_toFinset, ← List.card_toFinset, ht]

/-- When no multi-component branch condition holds, the no-frontend
decision tree falls through to the single-component branches. -/
lemma resolveAbsNone_of_not_multi {r w l : Bool} {n : Nat}
    (h1 : ¬(r = true ∧ w = true ∧ l = true ∧ n = 3))
    (h2 : ¬(r = true ∧ w = true ∧ n = 2))
    (h3 : ¬(r = true ∧ l = true ∧ n = 2))
    (h4 : ¬(w = true ∧ l = true ∧ n = 2)) :
    resolveAbsNone r w l n =
      if r then some ripressBasic else if w then some wyndBasic
      else if l then some lumeBasic else none := by
  unfold resolveAbsNone
  cases r <;> cases w <;> cases l <;> simp_all

/-- When no multi-component branch condition holds, the react decision
tree falls through to the single-component branches. -/
lemma resolveAbsReact_of_not_multi {r w l : Bool} {n : Nat}
    (h1 : ¬(r = true ∧ w = true ∧ l = true ∧ n = 3))
    (h2 : ¬(r = true ∧ w = true ∧ n = 2))
    (h3 : ¬(r = true ∧ l = true ∧ n = 2))
    (h4 : ¬(w = true ∧ l = true ∧ n = 2)) :
    resolveAbsReact r w l n =
      if r then some ripressReact else if w then some wyndReact else none := by
  unfold resolveAbsReact
  cases r <;> cases w <;> cases l <;> simp_all

/-- When no multi-component branch condition holds, the svelte decision
tree falls through to the single-component branches. -/
lemma resolveAbsSvelte_of_not_multi {r w l : Bool} {n : Nat}
    (h1 : ¬(r = true ∧ w = true ∧ l = true ∧ n = 3))
    (h2 : ¬(r = true ∧ w = true ∧ n = 2))
    (h3 : ¬(r = true ∧ l = true ∧ n = 2))
    (h4 : ¬(w = true ∧ l = true ∧ n = 2)) :
    resolveAbsSvelte r w l n =
      if r then some ripressSvelte else if w then some wyndSvelte else none := by
  unfold resolveAbsSvelte
  cases r <;> cases w <;> cases l <;> simp_all

/-- C4 (amended): unknown identifiers never cause a template to match —
any returned template comes from a priority entry whose required
components are all known registry identifiers and all selected — and the
resolution result depends only on which known components are selected and
on the number of distinct selected identifiers. Unknown identifiers are
therefore not fully excluded from matching: they raise that
distinct-identifier count, which the multi-component exact-equality check
compares, so removing them can change the result. -/
theorem C4_unknown_components :
    (∀ (name : String) (comps : List String) (f : Option String) (t : ProjectTemplate),
      (ProjectSetup.new name comps f).determine_template = some t →
      ∃ key req, (key, req) ∈ (ProjectSetup.new name comps f).template_priorities ∧
        load_templates.lookup key = some t ∧
        ∀ c ∈ req, c ∈ comps.map to_lowercase ∧ c ∈ knownComponentIds) ∧
    (∀ (name1 name2 : String) (comps1 comps2 : List String) (f : Option String),
      (∀ c ∈ knownComponentIds,
        (c ∈ comps1.map to_lowercase ↔ c ∈ comps2.map to_lowercase)) →
      (comps1.map to_lowercase).dedup.length = (comps2.map to_lowercase).dedup.length →
      (ProjectSetup.new name1 comps1 f).determine_template =
        (ProjectSetup.new name2 comps2 f).determine_template) := by
  constructor
  · intro name comps f t h
    have h' : resolveLoop (ProjectSetup.new name comps f).templates
        (ProjectSetup.new name comps f).template_priorities
        ((comps.map to_lowercase).dedup) = some t := h
    obtain ⟨key, req, hmem, hlook, hsub, _⟩ := resolveLoop_eq_some h'
    refine ⟨key, req, hmem, hlook, fun c hc => ⟨?_, ?_⟩⟩
    · exact List.mem_dedup.mp (hsub c hc)
    · exact (priorities_entry_facts name comps f _ hmem).2 c hc
  · intro name1 name2 comps1 comps2 f hiff hlen
    have hr := hiff "ripress" (by decide)
    have hw := hiff "wynd" (by decide)
    have hl := hiff "lume" (by decide)
    by_cases h1 : f = some "react"
    · subst h1
      rw [determine_new_react, determine_new_react, decide_eq_decide.mpr hr,
        decide_eq_decide.mpr hw, decide_eq_decide.mpr hl, hlen]
    · by_cases h2 : f = some "svelte"
      · subst h2
        rw [determine_new_svelte, determine_new_svelte, decide_eq_decide.mpr hr,
          decide_eq_decide.mpr hw, decide_eq_decide.mpr hl, hlen]
      · rw [determine_new_noFrontend name1 comps1 f h1 h2,
          determine_new_noFrontend name2 comps2 f h1 h2, decide_eq_decide.mpr hr,
          decide_eq_decide.mpr hw, decide_eq_decide.mpr hl, hlen]

/-- C4 witness: soundness at `{"ripress"}` and invariance between
`{"RIPRESS","zzz"}` and `{"ripress","qqq"}` (same known components, same
distinct count, different unknowns). -/
theorem C4_unknown_components_witness :
    (∃ key req, (key, req) ∈ (ProjectSetup.new "p" ["ripress"] none).template_priorities ∧
      load_templates.lookup key = some ripressBasic ∧
      ∀ c ∈ req, c ∈ ["ripress"].map to_lowercase ∧ c ∈ knownComponentIds) ∧
    (ProjectSetup.new "a" ["RIPRESS", "zzz"] none).determine_template =
      (ProjectSetup.new "b" ["ripress", "qqq"] none).determine_template :=
  ⟨C4_unknown_components.1 "p" ["ripress"] none ripressBasic (by decide),
   C4_unknown_components.2 "a" "b" ["RIPRESS", "zzz"] ["ripress", "qqq"] none
     (by decide) (by decide)⟩

/-- C1 (amended): a selection that strictly contains a multi-component
candidate's required set never resolves to that candidate's template; if
in addition the selection's normalized set does not exactly equal the
required set of any multi-component candidate, resolution falls back to
the highest-priority single-component template whose component is in the
selection (so `{"ripress","wynd","extraunknown"}` with no frontend
resolves to Ripress Basic); and a selection exactly equal to a
multi-component required set resolves to that candidate's template. -/
theorem C1_exactness_and_fallback :
    (∀ (name : String) (comps : List String) (f : Option String) (key : String)
        (req : List String) (t : ProjectTemplate),
      (key, req) ∈ (ProjectSetup.new name comps f).template_priorities →
      1 < req.length →
      load_templates.lookup key = some t →
      (∀ c ∈ req, c ∈ comps.map to_lowercase) →
      (∃ x, x ∈ comps.map to_lowercase ∧ x ∉ req) →
      (ProjectSetup.new name comps f).determine_template ≠ some t) ∧
    (∀ (name : String) (comps : List String) (f : Option String) (req : List String),
      req ∈ multiRequiredSets →
      (∀ c ∈ req, c ∈ comps.map to_lowercase) →
      (∃ x, x ∈ comps.map to_lowercase ∧ x ∉ req) →
      (∀ req' ∈ multiRequiredSets, ¬(∀ c, c ∈ comps.map to_lowercase ↔ c ∈ req')) →
      ∃ c t, firstSelectedSingle (comps.map to_lowercase) = some c ∧
        templateForRequired (ProjectSetup.new name comps f).template_priorities [c] =
          some t ∧
        (ProjectSetup.new name comps f).determine_template = some t) ∧
    ((ProjectSetup.new "p" ["ripress", "wynd", "extraunknown"] none).determine_template =
      some ripressBasic) ∧
    (∀ (name : String) (comps : List String) (f : Option String) (req : List String),
      req ∈ multiRequiredSets →
      (∀ c, c ∈ comps.map to_lowercase ↔ c ∈ req) →
      ∃ t, templateForRequired (ProjectSetup.new name comps f).template_priorities req =
          some t ∧
        (ProjectSetup.new name comps f).determine_template = some t) := by
  refine ⟨?_, ?_, by decide, ?_⟩
  · -- a strict superset never resolves to that multi-component template
    intro name comps f key req t hmem hlen hlook hsub hex hdet
    obtain ⟨x, hxL, hxreq⟩ := hex
    have hdet' : resolveLoop (ProjectSetup.new name comps f).templates
        (ProjectSetup.new name comps f).template_priorities
        ((comps.map to_lowercase).dedup) = some t := hdet
    obtain ⟨key', req', hmem', hlook', _, hsz'⟩ := resolveLoop_eq_some hdet'
    have hT : (ProjectSetup.new name comps f).templates = load_templates := rfl
    rw [hT] at hlook'
    have hkey : key' = key := lookup_inj load_templates_values_nodup hlook' hlook
    subst hkey
    have hreq' : req' = req :=
      assoc_right_unique (priorities_fst_nodup name comps f) hmem' hmem
    rw [hreq'] at hsz'
    have hnd : req.Nodup := (priorities_entry_facts name comps f _ hmem).1
    have hall : ∀ y ∈ x :: req, y ∈ comps.map to_lowercase := by
      intro y hy
      rcases List.mem_cons.mp hy with rfl | hy'
      · exact hxL
      · exact hsub y hy'
    have hge := nodup_length_le_dedup_length hall (List.nodup_cons.mpr ⟨hxreq, hnd⟩)
    simp only [List.length_cons] at hge
    have hsz := hsz' hlen
    omega
  · -- the fallback to the highest-priority selected single component
    intro name comps f req hreq hsub hstrict hnoexact
    have hm1 : ¬(("ripress" ∈ comps.map to_lowercase) ∧
        ("wynd" ∈ comps.map to_lowercase) ∧ ("lume" ∈ comps.map to_lowercase) ∧
        (comps.map to_lowercase).dedup.length = 3) := by
      rintro ⟨ha, hb, hc, hn⟩
      refine hnoexact ["ripress", "wynd", "lume"] (by decide)
        (exact_set_match ?_ (by decide) hn)
      intro d hd
      simp only [List.mem_cons, List.not_mem_nil, or_false] at hd
      rcases hd with rfl | rfl | rfl
      · exact ha
      · exact hb
      · exact hc
    have hm2 : ¬(("ripress" ∈ comps.map to_lowercase) ∧
        ("wynd" ∈ comps.map to_lowercase) ∧
        (comps.map to_lowercase).dedup.length = 2) := by
      rintro ⟨ha, hb, hn⟩
      refine hnoexact ["ripress", "wynd"] (by decide)
        (exact_set_match ?_ (by decide) hn)
      intro d hd
      simp only [List.mem_cons, List.not_mem_nil, or_false] at hd
      rcases hd with rfl | rfl
      · exact ha
      · exact hb
    have hm3 : ¬(("ripress" ∈ comps.map to_lowercase) ∧
        ("lume" ∈ comps.map to_lowercase) ∧
        (comps.map to_lowercase).dedup.length = 2) := by
      rintro ⟨ha, hb, hn⟩
      refine hnoexact ["ripress", "lume"] (by decide)
        (exact_set_match ?_ (by decide) hn)
      intro d hd
      simp only [List.mem_cons, List.not_mem_nil, or_false] at hd
      rcases hd with rfl | rfl
      · exact ha
      · exact hb
    have hm4 : ¬(("wynd" ∈ comps.map to_lowercase) ∧
        ("lume" ∈ comps.map to_lowercase) ∧
        (comps.map to_lowercase).dedup.length = 2) := by
      rintro ⟨ha, hb, hn⟩
      refine hnoexact ["wynd", "lume"] (by decide)
        (exact_set_match ?_ (by decide) hn)
      intro d hd
      simp only [List.mem_cons, List.not_mem_nil, or_false] at hd
      rcases hd with rfl | rfl
      · exact ha
      · exact hb
    have htwo : ("ripress" ∈ comps.map to_lowercase) ∨
        (("wynd" ∈ comps.map to_lowercase) ∧ ("lume" ∈ comps.map to_lowercase)) := by
      simp only [multiRequiredSets, List.mem_cons, List.not_mem_nil, or_false] at hreq
      rcases hreq with rfl | rfl | rfl | rfl
      · exact Or.inl (hsub "ripress" (by decide))
      · exact Or.inl (hsub "ripress" (by decide))
      · exact Or.inl (hsub "ripress" (by decide))
      · exact Or.inr ⟨hsub "wynd" (by decide), hsub "lume" (by decide)⟩
    by_cases h1 : f = some "react"
    · subst h1
      by_cases hr : "ripress" ∈ comps.map to_lowercase
      · refine ⟨"ripress", ripressReact, ?_, ?_, ?_⟩
        · unfold firstSelectedSingle
          rw [List.find?_cons_of_pos _ (by simp [hr])]
        · rw [template_priorities_new, if_pos rfl]
          decide
        · rw [determine_new_react, resolveAbsReact_of_not_multi (by simpa using hm1)
            (by simpa using hm2) (by simpa using hm3) (by simpa using hm4)]
          simp [hr]
      · obtain ⟨hw, hl⟩ := htwo.resolve_left hr
        refine ⟨"wynd", wyndReact, ?_, ?_, ?_⟩
        · unfold firstSelectedSingle
          rw [List.find?_cons_of_neg _ (by simp [hr]),
            List.find?_cons_of_pos _ (by simp [hw])]
        · rw [template_priorities_new, if_pos rfl]
          decide
        · rw [determine_new_react, resolveAbsReact_of_not_multi (by simpa using hm1)
            (by simpa using hm2) (by simpa using hm3) (by simpa using hm4)]
          simp [hr, hw]
    · by_cases h2 : f = some "svelte"
      · subst h2
        by_cases hr : "ripress" ∈ comps.map to_lowercase
        · refine ⟨"ripress", ripressSvelte, ?_, ?_, ?_⟩
          · unfold firstSelectedSingle
            rw [List.find?_cons_of_pos _ (by simp [hr])]
          · rw [template_priorities_new, if_neg (by decide), if_pos rfl]
            decide
          · rw [determine_new_svelte, resolveAbsSvelte_of_not_multi (by simpa using hm1)
              (by simpa using hm2) (by simpa using hm3) (by simpa using hm4)]
            simp [hr]
        · obtain ⟨hw, hl⟩ := htwo.resolve_left hr
          refine ⟨"wynd", wyndSvelte, ?_, ?_, ?_⟩
          · unfold firstSelectedSingle
            rw [List.find?_cons_of_neg _ (by simp [hr]),
              List.find?_cons_of_pos _ (by simp [hw])]
          · rw [template_priorities_new, if_neg (by decide), if_pos rfl]
            decide
          · rw [determine_new_svelte, resolveAbsSvelte_of_not_multi (by simpa using hm1)
              (by simpa using hm2) (by simpa using hm3) (by simpa using hm4)]
            simp [hr, hw]
      · by_cases hr : "ripress" ∈ comps.map to_lowercase
        · refine ⟨"ripress", ripressBasic, ?_, ?_, ?_⟩
          · unfold firstSelectedSingle
            rw [List.find?_cons_of_pos _ (by simp [hr])]
          · rw [template_priorities_new, if_neg h1, if_neg h2]
            decide
          · rw [determine_new_noFrontend name comps f h1 h2,
              resolveAbsNone_of_not_multi (by simpa using hm1) (by simpa using hm2)
                (by simpa using hm3) (by simpa using hm4)]
            simp [hr]
        · obtain ⟨hw, hl⟩ := htwo.resolve_left hr
          refine ⟨"wynd", wyndBasic, ?_, ?_, ?_⟩
          · unfold firstSelectedSingle
            rw [List.find?_cons_of_neg _ (by simp [hr]),
              List.find?_cons_of_pos _ (by simp [hw])]
          · rw [template_priorities_new, if_neg h1, if_neg h2]
            decide
          · rw [determine_new_noFrontend name comps f h1 h2,
              resolveAbsNone_of_not_multi (by simpa using hm1) (by simpa using hm2)
                (by simpa using hm3) (by simpa using hm4)]
            simp [hr, hw]
  · -- a selection exactly equal to a multi-component required set
    intro name comps f req hreq hiff
    have hn := dedup_length_eq_of_mem_iff hiff
    simp only [multiRequiredSets, List.mem_cons, List.not_mem_nil, or_false] at hreq
    by_cases h1 : f = some "react"
    · subst h1
      rcases hreq with rfl | rfl | rfl | rfl
      · have hr : "ripress" ∈ comps.map to_lowercase := (hiff "ripress").mpr (by decide)
        have hw : "wynd" ∈ comps.map to_lowercase := (hiff "wynd").mpr (by decide)
        have hl : "lume" ∈ comps.map to_lowercase := (hiff "lume").mpr (by decide)
        have hn3 : (comps.map to_lowercase).dedup.length = 3 := by rw [hn]; decide
        refine ⟨ripressWyndLumeReact, ?_, ?_⟩
        · rw [template_priorities_new, if_pos rfl]
          decide
        · rw [determine_new_react, decide_eq_true hr, decide_eq_true hw,
            decide_eq_true hl, hn3]
          decide
      · have hr : "ripress" ∈ comps.map to_lowercase := (hiff "ripress").mpr (by decide)
        have hw : "wynd" ∈ comps.map to_lowercase := (hiff "wynd").mpr (by decide)
        have hl : "lume" ∉ comps.map to_lowercase := fun hx => by
          have := (hiff "lume").mp hx
          simp at this
        have hn2 : (comps.map to_lowercase).dedup.length = 2 := by rw [hn]; decide
        refine ⟨ripressWyndReact, ?_, ?_⟩
        · rw [template_priorities_new, if_pos rfl]
          decide
        · rw [determine_new_react, decide_eq_true hr, decide_eq_true hw,
            decide_eq_false hl, hn2]
          decide
      · have hr : "ripress" ∈ comps.map to_lowercase := (hiff "ripress").mpr (by decide)
        have hw : "wynd" ∉ comps.map to_lowercase := fun hx => by
          have := (hiff "wynd").mp hx
          simp at this
        have hl : "lume" ∈ comps.map to_lowercase := (hiff "lume").mpr (by decide)
        have hn2 : (comps.map to_lowercase).dedup.length = 2 := by rw [hn]; decide
        refine ⟨ripressLumeReact, ?_, ?_⟩
        · rw [template_priorities_new, if_pos rfl]
          decide
        · rw [determine_new_react, decide_eq_true hr, decide_eq_false hw,
            decide_eq_true hl, hn2]
          decide
      · have hr : "ripress" ∉ comps.map to_lowercase := fun hx => by
          have := (hiff "ripress").mp hx
          simp at this
        have hw : "wynd" ∈ comps.map to_lowercase := (hiff "wynd").mpr (by decide)
        have hl : "lume" ∈ comps.map to_lowercase := (hiff "lume").mpr (by decide)
        have hn2 : (comps.map to_lowercase).dedup.length = 2 := by rw [hn]; decide
        refine ⟨wyndLumeReact, ?_, ?_⟩
        · rw [template_priorities_new, if_pos rfl]
          decide
        · rw [determine_new_react, decide_eq_false hr, decide_eq_true hw,
            decide_eq_true hl, hn2]
          decide
    · by_cases h2 : f = some "svelte"
      · subst h2
        rcases hreq with rfl | rfl | rfl | rfl
        · have hr : "ripress" ∈ comps.map to_lowercase := (hiff "ripress").mpr (by decide)
          have hw : "wynd" ∈ comps.map to_lowercase := (hiff "wynd").mpr (by decide)
          have hl : "lume" ∈ comps.map to_lowercase := (hiff "lume").mpr (by decide)
          have hn3 : (comps.map to_lowercase).dedup.length = 3 := by rw [hn]; decide
          refine ⟨ripressWyndLumeSvelte, ?_, ?_⟩
          · rw [template_priorities_new, if_neg (by decide), if_pos rfl]
            decide
          · rw [determine_new_svelte, decide_eq_true hr, decide_eq_true hw,
              decide_eq_true hl, hn3]
            decide
        · have hr : "ripress" ∈ comps.map to_lowercase := (hiff "ripress").mpr (by decide)
          have hw : "wynd" ∈ comps.map to_lowercase := (hiff "wynd").mpr (by decide)
          have hl : "lume" ∉ comps.map to_lowercase := fun hx => by
            have := (hiff "lume").mp hx
            simp at this
          have hn2 : (comps.map to_lowercase).dedup.length = 2 := by rw [hn]; decide
          refine ⟨ripressWyndSvelte, ?_, ?_⟩
          · rw [template_priorities_new, if_neg (by decide), if_pos rfl]
            decide
          · rw [determine_new_svelte, decide_eq_true hr, decide_eq_true hw,
              decide_eq_false hl, hn2]
            decide
        · have hr : "ripress" ∈ comps.map to_lowercase := (hiff "ripress").mpr (by decide)
          have hw : "wynd" ∉ comps.map to_lowercase := fun hx => by
            have := (hiff "wynd").mp hx
            simp at this
          have hl : "lume" ∈ comps.map to_lowercase := (hiff "lume").mpr (by decide)
          have hn2 : (comps.map to_lowercase).dedup.length = 2 := by rw [hn]; decide
          refine ⟨ripressLumeSvelte, ?_, ?_⟩
          · rw [template_priorities_new, if_neg (by decide), if_pos rfl]
            decide
          · rw [determine_new_svelte, decide_eq_true hr, decide_eq_false hw,
              decide_eq_true hl, hn2]
            decide
        · have hr : "ripress" ∉ comps.map to_lowercase := fun hx => by
            have := (hiff "ripress").mp hx
            simp at this
          have hw : "wynd" ∈ comps.map to_lowercase := (hiff "wynd").mpr (by decide)
          have hl : "lume" ∈ comps.map to_lowercase := (hiff "lume").mpr (by decide)
          have hn2 : (comps.map to_lowercase).dedup.length = 2 := by rw [hn]; decide
          refine ⟨wyndLumeSvelte, ?_, ?_⟩
          · rw [template_priorities_new, if_neg (by decide), if_pos rfl]
            decide
          · rw [determine_new_svelte, decide_eq_false hr, decide_eq_true hw,
              decide_eq_true hl, hn2]
            decide
      · rcases hreq with rfl | rfl | rfl | rfl
        · have hr : "ripress" ∈ comps.map to_lowercase := (hiff "ripress").mpr (by decide)
          have hw : "wynd" ∈ comps.map to_lowercase := (hiff "wynd").mpr (by decide)
          have hl : "lume" ∈ comps.map to_lowercase := (hiff "lume").mpr (by decide)
          have hn3 : (comps.map to_lowercase).dedup.length = 3 := by rw [hn]; decide
          refine ⟨ripressWyndLume, ?_, ?_⟩
          · rw [template_priorities_new, if_neg h1, if_neg h2]
            decide
          · rw [determine_new_noFrontend name comps f h1 h2, decide_eq_true hr,
              decide_eq_true hw, decide_eq_true hl, hn3]
            decide
        · have hr : "ripress" ∈ comps.map to_lowercase := (hiff "ripress").mpr (by decide)
          have hw : "wynd" ∈ comps.map to_lowercase := (hiff "wynd").mpr (by decide)
          have hl : "lume" ∉ comps.map to_lowercase := fun hx => by
            have := (hiff "lume").mp hx
            simp at this
          have hn2 : (comps.map to_lowercase).dedup.length = 2 := by rw [hn]; decide
          refine ⟨ripressWynd, ?_, ?_⟩
          · rw [template_priorities_new, if_neg h1, if_neg h2]
            decide
          · rw [determine_new_noFrontend name comps f h1 h2, decide_eq_true hr,
              decide_eq_true hw, decide_eq_false hl, hn2]
            decide
        · have hr : "ripress" ∈ comps.map to_lowercase := (hiff "ripress").mpr (by decide)
          have hw : "wynd" ∉ comps.map to_lowercase := fun hx => by
            have := (hiff "wynd").mp hx
            simp at this
          have hl : "lume" ∈ comps.map to_lowercase := (hiff "lume").mpr (by decide)
          have hn2 : (comps.map to_lowercase).dedup.length = 2 := by rw [hn]; decide
          refine ⟨ripressLume, ?_, ?_⟩
          · rw [template_priorities_new, if_neg h1, if_neg h2]
            decide
          · rw [determine_new_noFrontend name comps f h1 h2, decide_eq_true hr,
              decide_eq_false hw, decide_eq_true hl, hn2]
            decide
        · have hr : "ripress" ∉ comps.map to_lowercase := fun hx => by
            have := (hiff "ripress").mp hx
            simp at this
          have hw : "wynd" ∈ comps.map to_lowercase := (hiff "wynd").mpr (by decide)
          have hl : "lume" ∈ comps.map to_lowercase := (hiff "lume").mpr (by decide)
          have hn2 : (comps.map to_lowercase).dedup.length = 2 := by rw [hn]; decide
          refine ⟨wyndLume, ?_, ?_⟩
          · rw [template_priorities_new, if_neg h1, if_neg h2]
            decide
          · rw [determine_new_noFrontend name comps f h1 h2, decide_eq_false hr,
              decide_eq_true hw, decide_eq_true hl, hn2]
            decide

/-- C1 witness: the strict superset `{"ripress","wynd","x"}` does not
resolve to Ripress + Wynd but falls back to Ripress Basic, and the exact
selection `{"ripress","wynd"}` resolves to Ripress + Wynd. -/
theorem C1_exactness_and_fallback_witness :
    ((ProjectSetup.new "p" ["ripress", "wynd", "x"] none).determine_template ≠
      some ripressWynd) ∧
    (∃ c t, firstSelectedSingle (["ripress", "wynd", "x"].map to_lowercase) = some c ∧
      templateForRequired
        (ProjectSetup.new "p" ["ripress", "wynd", "x"] none).template_priorities [c] =
        some t ∧
      (ProjectSetup.new "p" ["ripress", "wynd", "x"] none).determine_template = some t) ∧
    (∃ t, templateForRequired
        (ProjectSetup.new "p" ["ripress", "wynd"] none).template_priorities
        ["ripress", "wynd"] = some t ∧
      (ProjectSetup.new "p" ["ripress", "wynd"] none).determine_template = some t) :=
  ⟨C1_exactness_and_fallback.1 "p" ["ripress", "wynd", "x"] none "ripress_wynd"
      ["ripress", "wynd"] ripressWynd (by decide) (by decide) (by decide) (by decide)
      ⟨"x", by decide, by decide⟩,
   C1_exactness_and_fallback.2.1 "p" ["ripress", "wynd", "x"] none ["ripress", "wynd"]
      (by decide) (by decide) ⟨"x", by decide, by decide⟩
      (by
        intro req' hreq' hiff
        have hx := (hiff "x").mp (by decide)
        simp only [multiRequiredSets, List.mem_cons, List.not_mem_nil, or_false] at hreq'
        rcases hreq' with rfl | rfl | rfl | rfl <;> exact absurd hx (by decide)),
   C1_exactness_and_fallback.2.2.2 "p" ["ripress", "wynd"] none ["ripress", "wynd"]
      (by decide)
      (by
        intro c
        constructor
        · intro hc
          simp only [List.map_cons, List.map_nil, List.mem_cons, List.not_mem_nil,
            or_false] at hc
          rcases hc with rfl | rfl <;> decide
        · intro hc
          simp only [List.mem_cons, List.not_mem_nil, or_false] at hc
          rcases hc with rfl | rfl <;> decide)⟩
